import Mathlib

/-!
Verification of the CMSIS-NN Relay-to-TIR lowering pass
(`src/relay/backend/contrib/cmsisnn/relay_to_tir.cc`).

The pass recognizes fused quantized operator subgraphs (conv2d, softmax,
elementwise mul/add) and rewrites each matched call site into a call to a
newly emitted TIR PrimFunc whose body is a single `call_extern` to the
corresponding CMSIS-NN kernel routine.

We embed the Relay expressions consumed by the pass, the TIR artifacts it
produces, and the four `Emit*` functions plus the `Rewrite_` driver as
executable Lean functions, and prove structural properties of the lowering.
Floating-point scale arithmetic (C++ `float`/`double`) is modelled over ℚ;
the claims verified here concern which ratios are formed and how results are
assembled, not IEEE-754 rounding.
-/

namespace CMSISNN

/-- Attributes of a `qnn.conv2d` call (`Conv2DAttrs`): strides, padding and
dilation, each indexed `[0]` (height) and `[1]` (width) in the source. -/
structure Conv2DAttrs where
  strides : Int × Int
  padding : Int × Int
  dilation : Int × Int
  deriving Repr, DecidableEq

/-- Attributes of a `clip` call (`ClipAttrs`): the saturation bounds. -/
structure ClipAttrs where
  a_min : Int
  a_max : Int
  deriving Repr, DecidableEq

/-- The static attributes a call node may carry. -/
inductive Attrs where
  | none
  | conv2d (a : Conv2DAttrs)
  | clip (a : ClipAttrs)
  deriving Repr, DecidableEq

/-- The function attributes `Rewrite_` queries on a Relay `FunctionNode`:
`attr::kCompiler`, `attr::kComposite` and `tvm::attr::kGlobalSymbol`. -/
structure FuncAttrs where
  compiler : Option String
  composite : Option String
  globalSymbol : Option String
  deriving Repr, DecidableEq

/-- Relay expressions as consumed by the pass.  A tensor type is represented
by its shape (list of static dimensions, `get_const_int` applied).

* `callOp`: a call whose callee is an `OpNode`, carrying the op name, the
  arguments, the static attributes and the checked tensor type's shape.
* `callFn`: a call whose callee is a `FunctionNode` (with its attributes and
  body), carrying the call's own attrs / type-args / span as opaque tokens.
* `callGlobal`: a call whose callee is a `GlobalVar` (produced by the
  rewrite).
* `constI32` / `constF`: scalar `ConstantNode`s readable by
  `GetScalarFromConstant<int32_t>` / `<float>` (floats modelled over ℚ).
* `constTensor`: a tensor-valued `ConstantNode` (e.g. weights) — has a
  shape but no scalar reading.
* `rvar`: a Relay variable with its tensor shape. -/
inductive RExpr where
  | callOp (opName : String) (args : List RExpr) (attrs : Attrs) (tyShape : List Int)
  | callFn (fattrs : FuncAttrs) (fbody : RExpr) (args : List RExpr)
      (callAttrs : Nat) (typeArgs : List Nat) (span : Nat)
  | callGlobal (gname : String) (args : List RExpr)
      (callAttrs : Nat) (typeArgs : List Nat) (span : Nat)
  | constI32 (v : Int)
  | constF (v : ℚ)
  | constTensor (shape : List Int)
  | rvar (name : String) (tyShape : List Int)
  deriving Repr

/-- `expr.as<CallNode>()` followed by `op.as<OpNode>()`: succeeds only on a
call to an operator, yielding (op name, args, attrs, checked-type shape). -/
def asCallOp : RExpr → Option (String × List RExpr × Attrs × List Int)
  | RExpr.callOp n a at_ ty => some (n, a, at_, ty)
  | _ => none

/-- `GetScalarFromConstant<int32_t>`: read a scalar int32 constant. -/
def GetScalarInt : RExpr → Option Int
  | RExpr.constI32 v => some v
  | _ => none

/-- `GetScalarFromConstant<float>`: read a scalar float constant (over ℚ). -/
def GetScalarF : RExpr → Option ℚ
  | RExpr.constF v => some v
  | _ => none

/-- `type_as<TensorTypeNode>()->shape`: the static shape of an expression. -/
def typeOf : RExpr → Option (List Int)
  | RExpr.callOp _ _ _ ty => some ty
  | RExpr.rvar _ ty => some ty
  | RExpr.constTensor sh => some sh
  | RExpr.constI32 _ => some []
  | RExpr.constF _ => some []
  | _ => none

/-- An argument of the emitted `call_extern`: a string literal, a TIR
variable (handle), or an integer immediate (`ToArg`). -/
inductive PFArg where
  | str (s : String)
  | hvar (name : String)
  | int (v : Int)
  deriving Repr, DecidableEq

/-- The TIR statement forms produced by `CreatePrimFuncForExtern`:
an `Evaluate(call_extern(...))` leaf — we keep the extern routine name
(the leading `StringImm` argument of `call_extern`) separate from the data
arguments — optionally wrapped in `Allocate` and two `AttrStmt`s. -/
inductive Stmt where
  | evaluate (routine : String) (args : List PFArg)
  | allocate (bufName : String) (size : Int) (body : Stmt)
  | attrStmt (key : String) (body : Stmt)
  deriving Repr, DecidableEq

/-- The emitted TIR PrimFunc: dict attrs (global symbol, target kind,
`tir.noalias`), the formal parameter list (handle variable names), and
the body. -/
structure PrimFunc where
  globalSymbol : String
  targetKind : String
  noalias : Bool
  signature : List String
  body : Stmt
  deriving Repr, DecidableEq

/-- `CreatePrimFuncForExtern`: build the PrimFunc whose body evaluates one
`call_extern`; when `context_buffer_size` is nonzero the body is wrapped in
an `Allocate` of that many int8 bytes plus `device_type`/`device_id`
attribute statements. -/
def CreatePrimFuncForExtern (globalVarName : String) (func_signature : List String)
    (routine : String) (call_extern_args : List PFArg)
    (context_buffer_name : String) (context_buffer_size : Int) : PrimFunc :=
  let body := Stmt.evaluate routine call_extern_args
  let body :=
    if context_buffer_size ≠ 0 then
      Stmt.attrStmt "device_id"
        (Stmt.attrStmt "device_type"
          (Stmt.allocate context_buffer_name context_buffer_size body))
    else body
  { globalSymbol := globalVarName, targetKind := "cmsis-nn", noalias := true,
    signature := func_signature, body := body }

/-- `CMSISNNDimensions`: materialize a rank-4 shape as four int arguments;
`ICHECK`s that the rank is exactly 4. -/
def CMSISNNDimensions (shape : List Int) : Option (List Int) :=
  if shape.length = 4 then some shape else none

/-- `expr.as<CallNode>()` where only the arguments / attributes / checked
type of the call are subsequently accessed (the callee is not inspected). -/
def asCall : RExpr → Option (List RExpr × Attrs × List Int)
  | RExpr.callOp _ a at_ ty => some (a, at_, ty)
  | _ => none

/-- `attrs.as<ClipAttrs>()`. -/
def clipAttrsOf : Attrs → Option ClipAttrs
  | Attrs.clip a => some a
  | _ => none

/-- `attrs.as<Conv2DAttrs>()`. -/
def conv2dAttrsOf : Attrs → Option Conv2DAttrs
  | Attrs.conv2d a => some a
  | _ => none

/-! ## Quantization math -/

/-- Floor of log₂ over the naturals, driven by an explicit fuel argument
(structural recursion keeps the function kernel-reducible). -/
def log2Aux : Nat → Nat → Nat
  | 0, _ => 0
  | fuel + 1, n => if n ≤ 1 then 0 else log2Aux fuel (n / 2) + 1

/-- `floorLog2 n` is `⌊log₂ n⌋` for `n ≥ 1` (fuel `n` suffices since the
argument halves each step). -/
def floorLog2 (n : Nat) : Nat := log2Aux n n

/-- `round(num / den)` for `den > 0`: computes `⌊num/den + 1/2⌋`
(round half up, the rounding `std::round`-style normalization uses). -/
def roundRat (num den : Int) : Int := Int.fdiv (2 * num + den) (2 * den)

/-- Whether `|num| / den < 2 ^ g`, decided by cross multiplication. -/
def absLtPow2 (num : Int) (den : Nat) (g : Int) : Bool :=
  if 0 ≤ g then (num.natAbs : Int) < (den : Int) * 2 ^ g.toNat
  else (num.natAbs : Int) * 2 ^ (-g).toNat < (den : Int)

/-- Binary exponent of the nonzero rational `|num| / den`: the integer `e`
with `2 ^ (e - 1) ≤ |num| / den < 2 ^ e`, computed from the bit lengths of
numerator and denominator with comparisons correcting the estimate. -/
def binExp (num : Int) (den : Nat) : Int :=
  let g : Int := (floorLog2 num.natAbs : Int) - (floorLog2 den : Int)
  if absLtPow2 num den g then g
  else if absLtPow2 num den (g + 1) then g + 1 else g + 2

/-- Q31 fixed-point decomposition on a reduced fraction `num / den`:
normalize `|num| / den` to a significand in `[1/2, 1)` times `2 ^ e`, round
the significand to 31 fractional bits (`significand * 2^31 =
|num| * 2^(31-e) / den`), renormalize if rounding overflows to `2^31`, and
re-apply the sign. -/
def gfpmsCore (num : Int) (den : Nat) : Int × Int :=
  if num = 0 then (0, 0)
  else
    let e := binExp num den
    let m : Int :=
      if 0 ≤ 31 - e then roundRat ((num.natAbs : Int) * 2 ^ (31 - e).toNat) den
      else roundRat (num.natAbs : Int) ((den : Int) * 2 ^ (e - 31).toNat)
    let p := if m = 2 ^ (31 : Nat) then (m / 2, e + 1) else (m, e)
    if num < 0 then (-p.1, p.2) else p

/-- Modelled from the spec: `tvm::relay::qnn::GetFixedPointMultiplierShift`
is declared in `src/relay/qnn/utils.h`, which is not among the sources under
`src/`; the spec describes it as decomposing a finite real value into a Q31
fixed-point `(multiplier, shift)` pair with `multiplier * 2 ^ (shift - 31)`
reconstructing the value, the multiplier normalized (most significant used
bit set) except that `0` maps to `(0, 0)`.  We realize that contract over ℚ
through `gfpmsCore` on the reduced numerator/denominator pair. -/
def GetFixedPointMultiplierShift (value : ℚ) : Int × Int :=
  gfpmsCore value.num value.den

/-- `kScaledDiffIntegerBits` (RelayToTIRVisitor private constant). -/
def kScaledDiffIntegerBits : Nat := 5

/-- `kInputBits` (RelayToTIRVisitor private constant). -/
def kInputBits : Nat := 5

/-- `kBeta` (RelayToTIRVisitor private constant). -/
def kBeta : ℚ := 1

/-- C++ arithmetic right shift `x >> s` on `int32_t`, as floor division by
`2 ^ s`.  The source can reach `>>` with a negative shift count (undefined
behavior in C++); that case is modelled as the corresponding left shift. -/
def ashr (x : Int) (s : Int) : Int :=
  if 0 ≤ s then Int.fdiv x (2 ^ s.toNat) else x * 2 ^ (-s).toNat

/-! ## Emit functions -/

/-- `call->args[i]`: operand access. -/
def argN (args : List RExpr) (n : Nat) : Option RExpr := args.get? n

/-- `EmitSoftMax`: destructure `quantize(softmax(dequantize(x, scale)))`,
compute the fixed-point softmax parameters, and build the PrimFunc whose
body calls `arm_softmax_s8`. -/
def EmitSoftMax (gname : String) (expr : RExpr) : Option PrimFunc :=
  match asCall expr with
  | none => none
  | some (qArgs, _, qTy) =>
    match (argN qArgs 0).bind asCall with
    | none => none
    | some (smArgs, _, _) =>
      match (argN smArgs 0).bind asCall with
      | none => none
      | some (dqArgs, _, _) =>
        match (argN dqArgs 1).bind GetScalarF with
        | none => none
        | some quant_scale =>
          let shape := qTy
          let trailing_dim := shape.length - 1
          match shape.get? trailing_dim with
          | none => none
          | some row_size =>
            let num_rows := (shape.take trailing_dim).foldl (· * ·) 1
            let beta_multiplier : ℚ :=
              min (kBeta * quant_scale * ((2 : ℚ) ^ (31 - kInputBits)))
                  ((2 : ℚ) ^ (31 : Nat) - 1)
            let ms := GetFixedPointMultiplierShift beta_multiplier
            let mult := ms.1
            let shift := ms.2
            let diff_min : Int := ((2 : Int) ^ kScaledDiffIntegerBits - 1)
            let diff_min := diff_min * 2 ^ (31 - kScaledDiffIntegerBits)
            let diff_min := ashr diff_min shift
            let diff_min := diff_min * (-1)
            let func_signature : List String := ["input", "output"]
            let args : List PFArg :=
              [PFArg.hvar "input", PFArg.int num_rows, PFArg.int row_size,
               PFArg.int mult, PFArg.int shift, PFArg.int diff_min,
               PFArg.hvar "output"]
            some (CreatePrimFuncForExtern gname func_signature "arm_softmax_s8"
                    args "NULL" 0)

/-- `EmitMul`: read the three scale / zero-point pairs from the qnn.mul
call's operands, resolve the output multiplier, and build the PrimFunc
whose body calls `arm_elementwise_mul_s8`.  `TensorTypeNode::Size()` is the
product of the shape dimensions. -/
def EmitMul (gname : String) (expr : RExpr) : Option PrimFunc :=
  match asCall expr with
  | none => none
  | some (margs, _, mty) =>
    match (argN margs 2).bind GetScalarF, (argN margs 3).bind GetScalarInt,
          (argN margs 4).bind GetScalarF, (argN margs 5).bind GetScalarInt,
          (argN margs 6).bind GetScalarF, (argN margs 7).bind GetScalarInt with
    | some input_0_scale, some input_0_zero_point,
      some input_1_scale, some input_1_zero_point,
      some output_scale, some output_zero_point =>
      let quantized_multiplier := input_0_scale * input_1_scale / output_scale
      let ms := GetFixedPointMultiplierShift quantized_multiplier
      let output_multiplier := ms.1
      let output_shift := ms.2
      let tensor_size : Int := mty.foldl (· * ·) 1
      let func_signature : List String := ["input_0", "input_1", "output"]
      let args : List PFArg :=
        [PFArg.hvar "input_0", PFArg.hvar "input_1",
         PFArg.int (-input_0_zero_point), PFArg.int (-input_1_zero_point),
         PFArg.hvar "output", PFArg.int output_zero_point,
         PFArg.int output_multiplier, PFArg.int output_shift,
         PFArg.int (-128), PFArg.int 127, PFArg.int tensor_size]
      some (CreatePrimFuncForExtern gname func_signature
              "arm_elementwise_mul_s8" args "NULL" 0)
    | _, _, _, _, _, _ => none

/-- `EmitAdd`: read the three scale / zero-point pairs, rescale to the
common exponent (`2 * max` of the input scales, left-shift constant 20),
resolve the three multiplier/shift pairs independently, and build the
PrimFunc whose body calls `arm_elementwise_add_s8`. -/
def EmitAdd (gname : String) (expr : RExpr) : Option PrimFunc :=
  match asCall expr with
  | none => none
  | some (aargs, _, aty) =>
    match (argN aargs 2).bind GetScalarF, (argN aargs 3).bind GetScalarInt,
          (argN aargs 4).bind GetScalarF, (argN aargs 5).bind GetScalarInt,
          (argN aargs 6).bind GetScalarF, (argN aargs 7).bind GetScalarInt with
    | some input_0_scale, some input_0_zero_point,
      some input_1_scale, some input_1_zero_point,
      some output_scale, some output_zero_point =>
      let left_shift : Int := 20
      let input_0_offset := -input_0_zero_point
      let input_1_offset := -input_1_zero_point
      let max_input_scale := max input_0_scale input_1_scale
      let twice_max_input_scale := 2 * max_input_scale
      let scaled_input_0_scale := input_0_scale / twice_max_input_scale
      let scaled_input_1_scale := input_1_scale / twice_max_input_scale
      let scaled_output_scale :=
        twice_max_input_scale / ((2 : ℚ) ^ (20 : Nat) * output_scale)
      let ms0 := GetFixedPointMultiplierShift scaled_input_0_scale
      let ms1 := GetFixedPointMultiplierShift scaled_input_1_scale
      let mso := GetFixedPointMultiplierShift scaled_output_scale
      let tensor_size : Int := aty.foldl (· * ·) 1
      let func_signature : List String := ["input_0", "input_1", "output"]
      let args : List PFArg :=
        [PFArg.hvar "input_0", PFArg.hvar "input_1",
         PFArg.int input_0_offset, PFArg.int ms0.1, PFArg.int ms0.2,
         PFArg.int input_1_offset, PFArg.int ms1.1, PFArg.int ms1.2,
         PFArg.int left_shift,
         PFArg.hvar "output", PFArg.int output_zero_point,
         PFArg.int mso.1, PFArg.int mso.2,
         PFArg.int (-128), PFArg.int 127, PFArg.int tensor_size]
      some (CreatePrimFuncForExtern gname func_signature
              "arm_elementwise_add_s8" args "NULL" 0)
    | _, _, _, _, _, _ => none

/-- The node-chain decomposition at the top of `EmitConv2D`: an optional
`clip` wrapping the requantize call, whose first operand is an optional
`nn.bias_add` wrapping the conv2d call.  Yields the clip attributes (when
the clip node is present), the requantize call's operands, whether the bias
node is present, and the conv2d call expression. -/
def decomposeConv2D (expr : RExpr) :
    Option (Option ClipAttrs × List RExpr × Bool × RExpr) :=
  match asCallOp expr with
  | none => none
  | some (finalName, finalArgs, finalAttrs, _) =>
    let step1 : Option (Option ClipAttrs × RExpr) :=
      if finalName = "clip" then
        match clipAttrsOf finalAttrs, argN finalArgs 0 with
        | some a, some r => some (some a, r)
        | _, _ => none
      else some (none, expr)
    match step1 with
    | none => none
    | some (clipA, requantizeExpr) =>
      match asCall requantizeExpr with
      | none => none
      | some (rqArgs, _, _) =>
        match argN rqArgs 0 with
        | none => none
        | some requantizeInput =>
          match asCallOp requantizeInput with
          | none => none
          | some (riName, riArgs, _, _) =>
            if riName = "nn.bias_add" then
              match argN riArgs 0 with
              | none => none
              | some conv => some (clipA, rqArgs, true, conv)
            else some (clipA, rqArgs, false, requantizeInput)

/-- `EmitConv2D`: decompose the (optional clip) → requantize →
(optional bias_add) → conv2d chain, assemble the CMSIS-NN argument list
and scratch ("context") buffer, and build the PrimFunc whose body calls
`arm_convolve_wrapper_s8`.  Threads the scratch-buffer naming counter
`context_buffer_id_`. -/
def EmitConv2D (context_buffer_id : Nat) (gname : String) (expr : RExpr) :
    Option (PrimFunc × Nat) :=
  match decomposeConv2D expr with
  | none => none
  | some (clipA, rqArgs, hasBias, conv2dExpr) =>
    match asCall conv2dExpr with
    | none => none
    | some (convArgs, convAttrs, convTy) =>
      match conv2dAttrsOf convAttrs,
            (argN convArgs 2).bind GetScalarInt,
            (argN rqArgs 4).bind GetScalarInt,
            (argN convArgs 0).bind typeOf,
            (argN convArgs 1).bind typeOf with
      | some conv2d_attrs, some input_zero_point, some output_offset,
        some input_shape, some filter_shape =>
        let input_offset := -input_zero_point
        let stride_w := conv2d_attrs.strides.2
        let stride_h := conv2d_attrs.strides.1
        let padding_w := conv2d_attrs.padding.2
        let padding_h := conv2d_attrs.padding.1
        let dilation_w := conv2d_attrs.dilation.2
        let dilation_h := conv2d_attrs.dilation.1
        let clipBounds :=
          match clipA with
          | some a => (a.a_min, a.a_max)
          | none => ((-128 : Int), (127 : Int))
        let clip_min := clipBounds.1
        let clip_max := clipBounds.2
        let call_ext_args : List PFArg :=
          [PFArg.hvar "input", PFArg.hvar "filter", PFArg.hvar "multiplier"]
          ++ (if hasBias then [PFArg.hvar "bias"] else [])
          ++ [PFArg.hvar "shift", PFArg.hvar "output"]
        let scalar_args : List PFArg :=
          [PFArg.int input_offset, PFArg.int output_offset,
           PFArg.int stride_w, PFArg.int stride_h,
           PFArg.int padding_w, PFArg.int padding_h,
           PFArg.int dilation_w, PFArg.int dilation_h,
           PFArg.int clip_min, PFArg.int clip_max]
        match CMSISNNDimensions input_shape, CMSISNNDimensions filter_shape,
              CMSISNNDimensions convTy with
        | some input_dims, some filter_dims, some output_dims =>
          match input_shape, filter_shape with
          | [_, _, _, is3], fs0 :: fs1 :: fs2 :: _ =>
            let bias_shape : List Int := [1, 1, 1, fs0]
            match CMSISNNDimensions bias_shape with
            | none => none
            | some bias_dims =>
              let context_buffer_size : Int := 2 * is3 * fs2 * fs1 * 2
              let bufPair :=
                if context_buffer_size ≠ 0 then
                  ("context_buffer_" ++ toString context_buffer_id,
                   context_buffer_id + 1)
                else ("NULL", context_buffer_id)
              let context_buffer_name := bufPair.1
              let context_buffer_args : List PFArg :=
                [PFArg.str context_buffer_name, PFArg.int context_buffer_size]
              let scalar_args := context_buffer_args ++ scalar_args
              let scalar_args := scalar_args ++ input_dims.map PFArg.int
              let scalar_args := scalar_args ++ filter_dims.map PFArg.int
              let scalar_args := scalar_args ++ bias_dims.map PFArg.int
              let scalar_args := scalar_args ++ output_dims.map PFArg.int
              let call_ext_args := call_ext_args ++ scalar_args
              let func_signature : List String :=
                ["input", "filter", "multiplier", "filter_scale"]
                ++ (if hasBias then ["bias"] else [])
                ++ ["input_scale", "shift", "output"]
              some (CreatePrimFuncForExtern gname func_signature
                      "arm_convolve_wrapper_s8" call_ext_args
                      context_buffer_name context_buffer_size,
                    bufPair.2)
          | _, _ => none
        | _, _, _ => none
      | _, _, _, _, _ => none

/-! ## Rewrite driver -/

/-- The IRModule fragment visible to the pass: the PrimFuncs registered so
far, keyed by global symbol. -/
abbrev Module := List (String × PrimFunc)

/-- The `Composite`-name dispatch inside `Rewrite_`: which emitter runs for
a recognized `cmsis-nn` function (comparisons against an undefined composite
name are all false); an unrecognized composite name emits nothing.  Returns
the updated `context_buffer_id_` counter and module. -/
def emitDispatch (comp_name : Option String) (func_name : String)
    (compBody : RExpr) (cnt : Nat) (m : Module) : Option (Nat × Module) :=
  if comp_name = some "cmsis-nn.qnn_softmax" then
    (EmitSoftMax func_name compBody).bind fun pf => some (cnt, m ++ [(func_name, pf)])
  else if comp_name = some "cmsis-nn.qnn_mul" then
    (EmitMul func_name compBody).bind fun pf => some (cnt, m ++ [(func_name, pf)])
  else if comp_name = some "cmsis-nn.qnn_add" then
    (EmitAdd func_name compBody).bind fun pf => some (cnt, m ++ [(func_name, pf)])
  else if comp_name = some "cmsis-nn.qnn_conv2d" then
    (EmitConv2D cnt func_name compBody).bind fun r => some (r.2, m ++ [(func_name, r.1)])
  else some (cnt, m)

mutual

/-- The `Rewrite_` driver of `RelayToTIRVisitor` (a `MixedModeMutator`):
post-order traversal; a call whose callee is a `FunctionNode` tagged
`Compiler="cmsis-nn"` is dispatched on the inner composite function's
`Composite` name (the inner call's callee must itself be a `FunctionNode`),
the emitted PrimFunc joins the module, and the call is replaced by a call
to the new `GlobalVar` (named by the outer function's `kGlobalSymbol`)
keeping the original call's attrs, type_args and span; every other
expression is rebuilt with its children visited.  Threads
`context_buffer_id_` and the module. -/
def rewriteExpr (e : RExpr) (cnt : Nat) (m : Module) :
    Option (RExpr × Nat × Module) :=
  match e with
  | RExpr.callOp op args at_ ty => do
      let (args2, c2, m2) ← rewriteList args cnt m
      pure (RExpr.callOp op args2 at_ ty, c2, m2)
  | RExpr.callFn fattrs fbody fargs ca ta sp => do
      let (args1, c1, m1) ← rewriteList fargs cnt m
      if fattrs.compiler = some "cmsis-nn" then
        match fbody with
        | RExpr.callFn compAttrs compBody _ _ _ _ => do
            let func_name ← fattrs.globalSymbol
            let (c2, m2) ← emitDispatch compAttrs.composite func_name compBody c1 m1
            pure (RExpr.callGlobal func_name args1 ca ta sp, c2, m2)
        | _ => none
      else
        pure (RExpr.callFn fattrs fbody args1 ca ta sp, c1, m1)
  | RExpr.callGlobal g args ca ta sp => do
      let (args2, c2, m2) ← rewriteList args cnt m
      pure (RExpr.callGlobal g args2 ca ta sp, c2, m2)
  | RExpr.constI32 v => pure (RExpr.constI32 v, cnt, m)
  | RExpr.constF v => pure (RExpr.constF v, cnt, m)
  | RExpr.constTensor sh => pure (RExpr.constTensor sh, cnt, m)
  | RExpr.rvar n ty => pure (RExpr.rvar n ty, cnt, m)

/-- Visit a list of argument expressions left to right, threading the
counter and module. -/
def rewriteList (es : List RExpr) (cnt : Nat) (m : Module) :
    Option (List RExpr × Nat × Module) :=
  match es with
  | [] => pure ([], cnt, m)
  | e :: rest => do
      let (e1, c1, m1) ← rewriteExpr e cnt m
      let (rest2, c2, m2) ← rewriteList rest c1 m1
      pure (e1 :: rest2, c2, m2)

end

/-! ## Observers on emitted PrimFuncs -/

/-- The data arguments of the `call_extern` in an emitted body (the routine
name `StringImm` is the callee designator, kept separately). -/
def externArgs : Stmt → List PFArg
  | Stmt.evaluate _ args => args
  | Stmt.allocate _ _ b => externArgs b
  | Stmt.attrStmt _ b => externArgs b

/-- The extern routine name invoked by an emitted body. -/
def externRoutine : Stmt → String
  | Stmt.evaluate r _ => r
  | Stmt.allocate _ _ b => externRoutine b
  | Stmt.attrStmt _ b => externRoutine b

/-- How many `call_extern` invocations a body contains. -/
def countExternCalls : Stmt → Nat
  | Stmt.evaluate _ _ => 1
  | Stmt.allocate _ _ b => countExternCalls b
  | Stmt.attrStmt _ b => countExternCalls b

/-- The (name, size) of every `Allocate` in a body. -/
def allocationsOf : Stmt → List (String × Int)
  | Stmt.evaluate _ _ => []
  | Stmt.allocate n s b => (n, s) :: allocationsOf b
  | Stmt.attrStmt _ b => allocationsOf b

/-- The handle (TIR variable) arguments of an argument list, in order. -/
def handleNames : List PFArg → List String
  | [] => []
  | PFArg.hvar n :: rest => n :: handleNames rest
  | PFArg.str _ :: rest => handleNames rest
  | PFArg.int _ :: rest => handleNames rest

/-- Whether every non-handle argument of an argument list is a literal
(string or integer immediate) — i.e. the list holds no other forms. -/
def PFArg.isLiteral : PFArg → Bool
  | PFArg.str _ => true
  | PFArg.int _ => true
  | PFArg.hvar _ => false

/-! ## Input builders for the convolution pattern

The partitioned Relay function body the pass receives for
`cmsis-nn.qnn_conv2d` (source comment, lines 120–126):
`clip?(requantize(bias_add?(conv2d(...)), ..., out_zp), a_min, a_max)`. -/

/-- A `qnn.conv2d` call with the operand layout the pass reads:
`(input, weight, input_zero_point, multiplier, input_scale, weight_scale)`. -/
def mkConv2D (input weight mult scale wscale : RExpr) (inputZP : Int)
    (attrs : Conv2DAttrs) (outShape : List Int) : RExpr :=
  RExpr.callOp "qnn.conv2d"
    [input, weight, RExpr.constI32 inputZP, mult, scale, wscale]
    (Attrs.conv2d attrs) outShape

/-- An `nn.bias_add` call wrapping the conv2d. -/
def mkBiasAdd (inner biasC : RExpr) : RExpr :=
  RExpr.callOp "nn.bias_add" [inner, biasC] Attrs.none []

/-- A `qnn.requantize` call; the pass reads operand 0 (the producer) and
operand 4 (the output zero point). -/
def mkRequantize (inner a b c : RExpr) (outZP : Int) : RExpr :=
  RExpr.callOp "qnn.requantize" [inner, a, b, c, RExpr.constI32 outZP]
    Attrs.none []

/-- A `clip` call with static bounds. -/
def mkClip (inner : RExpr) (amin amax : Int) : RExpr :=
  RExpr.callOp "clip" [inner] (Attrs.clip ⟨amin, amax⟩) []

/-- The four legal convolution shapes: optional bias, optional clip. -/
def mkConvPattern (useBias useClip : Bool)
    (input weight mult scale wscale biasC a b c : RExpr)
    (inputZP outZP amin amax : Int) (attrs : Conv2DAttrs)
    (outShape : List Int) : RExpr :=
  let conv := mkConv2D input weight mult scale wscale inputZP attrs outShape
  let inner := if useBias then mkBiasAdd conv biasC else conv
  let rq := mkRequantize inner a b c outZP
  if useClip then mkClip rq amin amax else rq

/-- A `qnn.dequantize` call `(data, scale, zero_point)`. -/
def mkDequantize (x scaleC zpC : RExpr) : RExpr :=
  RExpr.callOp "qnn.dequantize" [x, scaleC, zpC] Attrs.none []

/-- An `nn.softmax` call. -/
def mkSoftmax (inner : RExpr) : RExpr :=
  RExpr.callOp "nn.softmax" [inner] Attrs.none []

/-- A `qnn.quantize` call `(data, scale, zero_point)` with its output
tensor shape. -/
def mkQuantize (inner scaleC zpC : RExpr) (outShape : List Int) : RExpr :=
  RExpr.callOp "qnn.quantize" [inner, scaleC, zpC] Attrs.none outShape

/-- The softmax composite body: `quantize(softmax(dequantize(x, scale)))`. -/
def mkSoftmaxPattern (x : RExpr) (scale : ℚ) (dzp qscale qzp : RExpr)
    (outShape : List Int) : RExpr :=
  mkQuantize (mkSoftmax (mkDequantize x (RExpr.constF scale) dzp)) qscale qzp outShape

/-- A qnn binary elementwise call with the eight-operand layout the pass
reads: two tensors, then (scale, zero_point) for each input and for the
output. -/
def mkBinaryQnn (opName : String) (t0 t1 : RExpr) (s0 : ℚ) (z0 : Int)
    (s1 : ℚ) (z1 : Int) (so : ℚ) (zo : Int) (outShape : List Int) : RExpr :=
  RExpr.callOp opName [t0, t1, RExpr.constF s0, RExpr.constI32 z0,
    RExpr.constF s1, RExpr.constI32 z1, RExpr.constF so, RExpr.constI32 zo]
    Attrs.none outShape

/-! ## Evaluation lemmas for the emitters -/

/-- The PrimFunc built by `CreatePrimFuncForExtern` carries the global
symbol it was given. -/
theorem globalSymbol_create (g : String) (sig : List String) (r : String)
    (args : List PFArg) (n : String) (s : Int) :
    (CreatePrimFuncForExtern g sig r args n s).globalSymbol = g := by
  unfold CreatePrimFuncForExtern
  rcases eq_or_ne s 0 with hz | hz <;> simp [hz]

/-- The PrimFunc built by `CreatePrimFuncForExtern` carries the signature
it was given. -/
theorem signature_create (g : String) (sig : List String) (r : String)
    (args : List PFArg) (n : String) (s : Int) :
    (CreatePrimFuncForExtern g sig r args n s).signature = sig := by
  unfold CreatePrimFuncForExtern
  rcases eq_or_ne s 0 with hz | hz <;> simp [hz]

/-- The data arguments of the one extern call in a built body. -/
theorem externArgs_create (g : String) (sig : List String) (r : String)
    (args : List PFArg) (n : String) (s : Int) :
    externArgs (CreatePrimFuncForExtern g sig r args n s).body = args := by
  unfold CreatePrimFuncForExtern
  rcases eq_or_ne s 0 with hz | hz <;> simp [hz, externArgs]

/-- The extern routine of the one extern call in a built body. -/
theorem externRoutine_create (g : String) (sig : List String) (r : String)
    (args : List PFArg) (n : String) (s : Int) :
    externRoutine (CreatePrimFuncForExtern g sig r args n s).body = r := by
  unfold CreatePrimFuncForExtern
  rcases eq_or_ne s 0 with hz | hz <;> simp [hz, externRoutine]

/-- Every built body contains exactly one extern call. -/
theorem countExternCalls_create (g : String) (sig : List String) (r : String)
    (args : List PFArg) (n : String) (s : Int) :
    countExternCalls (CreatePrimFuncForExtern g sig r args n s).body = 1 := by
  unfold CreatePrimFuncForExtern
  rcases eq_or_ne s 0 with hz | hz <;> simp [hz, countExternCalls]

/-- A built body allocates exactly when the context buffer size is
nonzero, and then exactly once with the given name and size. -/
theorem allocationsOf_create (g : String) (sig : List String) (r : String)
    (args : List PFArg) (n : String) (s : Int) :
    allocationsOf (CreatePrimFuncForExtern g sig r args n s).body =
      (if s ≠ 0 then [(n, s)] else []) := by
  unfold CreatePrimFuncForExtern
  rcases eq_or_ne s 0 with hz | hz <;> simp [hz, allocationsOf]

/-- `decomposeConv2D` on each of the four legal pattern shapes. -/
theorem decomposeConv2D_mk (useBias useClip : Bool)
    (input weight mult scale wscale biasC a b c : RExpr)
    (inputZP outZP amin amax : Int) (at_ : Conv2DAttrs) (outShape : List Int) :
    decomposeConv2D (mkConvPattern useBias useClip input weight mult scale wscale
        biasC a b c inputZP outZP amin amax at_ outShape) =
      some (if useClip then some ⟨amin, amax⟩ else none,
            [(if useBias then
                mkBiasAdd (mkConv2D input weight mult scale wscale inputZP at_ outShape) biasC
              else mkConv2D input weight mult scale wscale inputZP at_ outShape),
             a, b, c, RExpr.constI32 outZP],
            useBias,
            mkConv2D input weight mult scale wscale inputZP at_ outShape) := by
  cases useBias <;> cases useClip <;> rfl

/-- Full evaluation of `EmitConv2D` on the four legal pattern shapes with
rank-4 input, filter and output shapes. -/
theorem emitConv2D_mk (useBias useClip : Bool) (g : String) (cnt : Nat)
    (input weight mult scale wscale biasC a b c : RExpr)
    (inputZP outZP amin amax : Int) (at_ : Conv2DAttrs)
    (i0 i1 i2 i3 f0 f1 f2 f3 o0 o1 o2 o3 : Int)
    (hin : typeOf input = some [i0, i1, i2, i3])
    (hw : typeOf weight = some [f0, f1, f2, f3]) :
    EmitConv2D cnt g (mkConvPattern useBias useClip input weight mult scale wscale
        biasC a b c inputZP outZP amin amax at_ [o0, o1, o2, o3]) =
      some (CreatePrimFuncForExtern g
        (["input", "filter", "multiplier", "filter_scale"]
          ++ (if useBias then ["bias"] else [])
          ++ ["input_scale", "shift", "output"])
        "arm_convolve_wrapper_s8"
        (([PFArg.hvar "input", PFArg.hvar "filter", PFArg.hvar "multiplier"]
          ++ (if useBias then [PFArg.hvar "bias"] else [])
          ++ [PFArg.hvar "shift", PFArg.hvar "output"])
          ++ [PFArg.str (if 2 * i3 * f2 * f1 * 2 ≠ 0 then "context_buffer_" ++ toString cnt else "NULL"),
          PFArg.int (2 * i3 * f2 * f1 * 2),
          PFArg.int (-inputZP), PFArg.int outZP,
          PFArg.int at_.strides.2, PFArg.int at_.strides.1,
          PFArg.int at_.padding.2, PFArg.int at_.padding.1,
          PFArg.int at_.dilation.2, PFArg.int at_.dilation.1,
          PFArg.int (if useClip then amin else -128),
          PFArg.int (if useClip then amax else 127)] ++
          ([i0,i1,i2,i3] ++ [f0,f1,f2,f3] ++ [1,1,1,f0] ++ [o0,o1,o2,o3]).map PFArg.int)
        (if 2 * i3 * f2 * f1 * 2 ≠ 0 then "context_buffer_" ++ toString cnt else "NULL")
        (2 * i3 * f2 * f1 * 2),
       if 2 * i3 * f2 * f1 * 2 ≠ 0 then cnt + 1 else cnt) := by
  rw [EmitConv2D, decomposeConv2D_mk]
  cases useBias <;> cases useClip <;>
    simp only [asCall, mkConv2D, mkBiasAdd, argN, clipAttrsOf, conv2dAttrsOf,
      GetScalarInt, hin, hw, CMSISNNDimensions] <;>
    rcases eq_or_ne (2 * i3 * f2 * f1 * 2) 0 with hz | hz <;>
    simp [hz, hin, hw]

/-- Full evaluation of `EmitSoftMax` on the softmax pattern; the output
shape is written `sh ++ [rs]` to expose the trailing axis. -/
theorem emitSoftMax_mk (g : String) (x dzp qscale qzp : RExpr) (s : ℚ)
    (sh : List Int) (rs : Int) :
    EmitSoftMax g (mkSoftmaxPattern x s dzp qscale qzp (sh ++ [rs])) =
      some (CreatePrimFuncForExtern g ["input", "output"] "arm_softmax_s8"
        [PFArg.hvar "input", PFArg.int (sh.foldl (· * ·) 1), PFArg.int rs,
         PFArg.int (GetFixedPointMultiplierShift
            (min (kBeta * s * ((2 : ℚ) ^ (31 - kInputBits))) ((2 : ℚ) ^ (31 : Nat) - 1))).1,
         PFArg.int (GetFixedPointMultiplierShift
            (min (kBeta * s * ((2 : ℚ) ^ (31 - kInputBits))) ((2 : ℚ) ^ (31 : Nat) - 1))).2,
         PFArg.int (ashr (((2 : Int) ^ kScaledDiffIntegerBits - 1) * 2 ^ (31 - kScaledDiffIntegerBits))
            (GetFixedPointMultiplierShift
              (min (kBeta * s * ((2 : ℚ) ^ (31 - kInputBits))) ((2 : ℚ) ^ (31 : Nat) - 1))).2 * (-1)),
         PFArg.hvar "output"] "NULL" 0) := by
  simp only [mkSoftmaxPattern, mkQuantize, mkSoftmax, mkDequantize, EmitSoftMax,
    asCall, argN, GetScalarF, List.get?, Option.bind]
  rw [List.length_append]
  simp [List.getElem?_concat_length, List.take_left]

/-- Full evaluation of `EmitMul` on the eight-operand mul pattern. -/
theorem emitMul_mk (g : String) (t0 t1 : RExpr) (s0 : ℚ) (z0 : Int)
    (s1 : ℚ) (z1 : Int) (so : ℚ) (zo : Int) (outShape : List Int) :
    EmitMul g (mkBinaryQnn "qnn.mul" t0 t1 s0 z0 s1 z1 so zo outShape) =
      some (CreatePrimFuncForExtern g ["input_0", "input_1", "output"]
        "arm_elementwise_mul_s8"
        [PFArg.hvar "input_0", PFArg.hvar "input_1",
         PFArg.int (-z0), PFArg.int (-z1),
         PFArg.hvar "output", PFArg.int zo,
         PFArg.int (GetFixedPointMultiplierShift (s0 * s1 / so)).1,
         PFArg.int (GetFixedPointMultiplierShift (s0 * s1 / so)).2,
         PFArg.int (-128), PFArg.int 127,
         PFArg.int (outShape.foldl (· * ·) 1)] "NULL" 0) := rfl

/-- Full evaluation of `EmitAdd` on the eight-operand add pattern. -/
theorem emitAdd_mk (g : String) (t0 t1 : RExpr) (s0 : ℚ) (z0 : Int)
    (s1 : ℚ) (z1 : Int) (so : ℚ) (zo : Int) (outShape : List Int) :
    EmitAdd g (mkBinaryQnn "qnn.add" t0 t1 s0 z0 s1 z1 so zo outShape) =
      some (CreatePrimFuncForExtern g ["input_0", "input_1", "output"]
        "arm_elementwise_add_s8"
        [PFArg.hvar "input_0", PFArg.hvar "input_1",
         PFArg.int (-z0),
         PFArg.int (GetFixedPointMultiplierShift (s0 / (2 * max s0 s1))).1,
         PFArg.int (GetFixedPointMultiplierShift (s0 / (2 * max s0 s1))).2,
         PFArg.int (-z1),
         PFArg.int (GetFixedPointMultiplierShift (s1 / (2 * max s0 s1))).1,
         PFArg.int (GetFixedPointMultiplierShift (s1 / (2 * max s0 s1))).2,
         PFArg.int 20,
         PFArg.hvar "output", PFArg.int zo,
         PFArg.int (GetFixedPointMultiplierShift ((2 * max s0 s1) / ((2 : ℚ) ^ (20 : Nat) * so))).1,
         PFArg.int (GetFixedPointMultiplierShift ((2 * max s0 s1) / ((2 : ℚ) ^ (20 : Nat) * so))).2,
         PFArg.int (-128), PFArg.int 127,
         PFArg.int (outShape.foldl (· * ·) 1)] "NULL" 0) := rfl

/-! ## Claim theorems: convolution -/

/-- Visiting a list of plain Relay variables changes nothing. -/
theorem rewriteList_rvars (vs : List (String × List Int)) (cnt : Nat) (m : Module) :
    rewriteList (vs.map fun p => RExpr.rvar p.1 p.2) cnt m =
      some (vs.map fun p => RExpr.rvar p.1 p.2, cnt, m) := by
  induction vs with
  | nil => simp [rewriteList]
  | cons v rest ih => simp [rewriteList, rewriteExpr, ih]

/-- **C1.** For every subgraph matching the full
clip → requantize → bias_add → conv2d shape, the lowering adds exactly one
new PrimFunc to the module, its body contains exactly one external call
with 34 data arguments (6 tensor/bias handles + 2 scratch-buffer arguments
+ 10 scalars + 16 dimension values; the routine-name literal heads the
`call_extern` argument array and designates the callee), and the original
call site is replaced by a call to the unit's registered global name. -/
theorem conv2d_lowering_end_to_end
    (fname xn : String) (cnt : Nat) (m : Module)
    (vs : List (String × List Int)) (ca : Nat) (ta : List Nat) (sp : Nat)
    (ccomp icc igs : Option String) (innerArgs : List RExpr)
    (ica isp : Nat) (ita : List Nat)
    (mult scale wscale biasC a b c : RExpr)
    (inputZP outZP amin amax : Int) (at_ : Conv2DAttrs)
    (i0 i1 i2 i3 f0 f1 f2 f3 o0 o1 o2 o3 : Int) :
    ∃ pf cnt',
      EmitConv2D cnt fname (mkConvPattern true true (RExpr.rvar xn [i0,i1,i2,i3])
          (RExpr.constTensor [f0,f1,f2,f3]) mult scale wscale biasC a b c
          inputZP outZP amin amax at_ [o0,o1,o2,o3]) = some (pf, cnt') ∧
      rewriteExpr (RExpr.callFn ⟨some "cmsis-nn", ccomp, some fname⟩
          (RExpr.callFn ⟨icc, some "cmsis-nn.qnn_conv2d", igs⟩
            (mkConvPattern true true (RExpr.rvar xn [i0,i1,i2,i3])
              (RExpr.constTensor [f0,f1,f2,f3]) mult scale wscale biasC a b c
              inputZP outZP amin amax at_ [o0,o1,o2,o3])
            innerArgs ica ita isp)
          (vs.map fun p => RExpr.rvar p.1 p.2) ca ta sp) cnt m =
        some (RExpr.callGlobal fname (vs.map fun p => RExpr.rvar p.1 p.2) ca ta sp,
              cnt', m ++ [(fname, pf)]) ∧
      pf.globalSymbol = fname ∧
      countExternCalls pf.body = 1 ∧
      (externArgs pf.body).length = 34 := by
  have hemit := emitConv2D_mk true true fname cnt (RExpr.rvar xn [i0,i1,i2,i3])
    (RExpr.constTensor [f0,f1,f2,f3]) mult scale wscale biasC a b c
    inputZP outZP amin amax at_ i0 i1 i2 i3 f0 f1 f2 f3 o0 o1 o2 o3 rfl rfl
  refine ⟨_, _, hemit, ?_, ?_, ?_, ?_⟩
  · rw [rewriteExpr]
    simp [rewriteList_rvars, emitDispatch, hemit]
  · exact globalSymbol_create _ _ _ _ _ _
  · exact countExternCalls_create _ _ _ _ _ _
  · rw [externArgs_create]
    simp

/-- **C2.** The convolution decomposer accepts all four combinations of
optional clamp and optional bias (biased/bias-free × clamped/unclamped);
when the clamp node is absent the emitted clamp bounds are exactly
(-128, 127), when present they are the clip node's `a_min`/`a_max`
attributes; when the bias node is absent neither the external-call argument
list nor the signature contains a bias handle. -/
theorem conv2d_decomposer_four_shapes (useBias useClip : Bool)
    (g xn : String) (cnt : Nat)
    (mult scale wscale biasC a b c : RExpr)
    (inputZP outZP amin amax : Int) (at_ : Conv2DAttrs)
    (i0 i1 i2 i3 f0 f1 f2 f3 o0 o1 o2 o3 : Int) :
    ∃ pf cnt',
      EmitConv2D cnt g (mkConvPattern useBias useClip (RExpr.rvar xn [i0,i1,i2,i3])
          (RExpr.constTensor [f0,f1,f2,f3]) mult scale wscale biasC a b c
          inputZP outZP amin amax at_ [o0,o1,o2,o3]) = some (pf, cnt') ∧
      (externArgs pf.body).get? ((if useBias then 6 else 5) + 2 + 8) =
        some (PFArg.int (if useClip then amin else -128)) ∧
      (externArgs pf.body).get? ((if useBias then 6 else 5) + 2 + 9) =
        some (PFArg.int (if useClip then amax else 127)) ∧
      (useBias = false →
        PFArg.hvar "bias" ∉ externArgs pf.body ∧ "bias" ∉ pf.signature) := by
  have hemit := emitConv2D_mk useBias useClip g cnt (RExpr.rvar xn [i0,i1,i2,i3])
    (RExpr.constTensor [f0,f1,f2,f3]) mult scale wscale biasC a b c
    inputZP outZP amin amax at_ i0 i1 i2 i3 f0 f1 f2 f3 o0 o1 o2 o3 rfl rfl
  refine ⟨_, _, hemit, ?_, ?_, ?_⟩ <;>
    rw [externArgs_create] <;>
    cases useBias <;> cases useClip <;> simp [signature_create]

/-- **C3.** Scratch-buffer sizing for the convolution lowering: the byte
size is `2 * input_channels * filter_height * filter_width * 2` (input
channels from the input shape's fourth axis, filter height/width from the
OHWI filter shape's second and third axes); a zero size emits no
allocation, keeps the counter, and passes the sentinel name "NULL"; a
nonzero size allocates exactly that many bytes under
`"context_buffer_" ++ counter` and increments the counter. -/
theorem conv2d_scratch_buffer_sizing (useBias useClip : Bool)
    (g xn : String) (cnt : Nat)
    (mult scale wscale biasC a b c : RExpr)
    (inputZP outZP amin amax : Int) (at_ : Conv2DAttrs)
    (i0 i1 i2 i3 f0 f1 f2 f3 o0 o1 o2 o3 : Int) :
    ∃ pf cnt',
      EmitConv2D cnt g (mkConvPattern useBias useClip (RExpr.rvar xn [i0,i1,i2,i3])
          (RExpr.constTensor [f0,f1,f2,f3]) mult scale wscale biasC a b c
          inputZP outZP amin amax at_ [o0,o1,o2,o3]) = some (pf, cnt') ∧
      (2 * i3 * f1 * f2 * 2 = 0 →
        allocationsOf pf.body = [] ∧ cnt' = cnt ∧
        (externArgs pf.body).get? (if useBias then 6 else 5) =
          some (PFArg.str "NULL")) ∧
      (2 * i3 * f1 * f2 * 2 ≠ 0 →
        allocationsOf pf.body = [("context_buffer_" ++ toString cnt, 2 * i3 * f1 * f2 * 2)] ∧
        cnt' = cnt + 1 ∧
        (externArgs pf.body).get? (if useBias then 6 else 5) =
          some (PFArg.str ("context_buffer_" ++ toString cnt))) := by
  have hemit := emitConv2D_mk useBias useClip g cnt (RExpr.rvar xn [i0,i1,i2,i3])
    (RExpr.constTensor [f0,f1,f2,f3]) mult scale wscale biasC a b c
    inputZP outZP amin amax at_ i0 i1 i2 i3 f0 f1 f2 f3 o0 o1 o2 o3 rfl rfl
  rw [show (2 * i3 * f2 * f1 * 2 : Int) = 2 * i3 * f1 * f2 * 2 from by ring] at hemit
  rcases eq_or_ne (2 * i3 * f1 * f2 * 2 : Int) 0 with hz | hz
  · simp only [hz, ne_eq] at hemit
    norm_num at hemit
    refine ⟨_, _, hemit, fun _ => ?_, fun hnz => absurd hz hnz⟩
    rw [allocationsOf_create, externArgs_create]
    refine ⟨by norm_num, rfl, ?_⟩
    cases useBias <;> simp
  · simp only [if_pos hz] at hemit
    refine ⟨_, _, hemit, fun hzz => absurd hzz hz, fun _ => ?_⟩
    rw [allocationsOf_create, externArgs_create]
    refine ⟨by simp [hz], rfl, ?_⟩
    cases useBias <;> simp

/-! ## Claim theorems: softmax -/

/-- The softmax `diff_min` formula exactly as the specification writes it,
`-(((1 << kScaledDiffIntegerBits) - 1) << (31 - kScaledDiffIntegerBits)) >> shift`,
read with C operator precedence (unary minus binds tighter than `>>`, so
the negated constant is what gets arithmetically shifted). -/
def diffMinSpecFormula (shift : Int) : Int :=
  ashr (-(((2 : Int) ^ kScaledDiffIntegerBits - 1) * 2 ^ (31 - kScaledDiffIntegerBits))) shift

/-- Evaluation of the fixed-point decomposition at the softmax
beta-multiplier for dequantize scale 1: the multiplier is `2^30` and the
shift is 27. -/
theorem gfpms_scale_one :
    GetFixedPointMultiplierShift
      (min (kBeta * 1 * ((2:ℚ) ^ (31 - kInputBits))) ((2:ℚ) ^ (31:Nat) - 1)) = (2 ^ 30, 27) := by
  have h1 : (min (kBeta * 1 * ((2:ℚ) ^ (31 - kInputBits))) ((2:ℚ) ^ (31:Nat) - 1)) = (67108864 : ℚ) := by
    norm_num [kBeta, kInputBits, min_def]
  rw [h1, GetFixedPointMultiplierShift]
  have h2 : (67108864 : ℚ).num = 67108864 := by norm_num
  have h3 : (67108864 : ℚ).den = 1 := by norm_num
  rw [h2, h3]
  decide

/-- **C4** (counterexample).  At dequantize scale 1 the lowering emits
shift 27 and `diff_min = -15` (the code shifts the positive constant and
then negates), while the specification's formula — negation applied before
the shift, as C precedence reads it — evaluates to -16 at shift 27. -/
theorem softmax_diff_min_formula_counterexample :
    (EmitSoftMax "fn" (mkSoftmaxPattern (RExpr.rvar "x" []) 1 (RExpr.constI32 0)
        (RExpr.constF (1/256)) (RExpr.constI32 (-128)) ([1] ++ [10]))).map
      (fun pf => ((externArgs pf.body).get? 4, (externArgs pf.body).get? 5)) =
      some (some (PFArg.int 27), some (PFArg.int (-15))) ∧
    diffMinSpecFormula 27 = -16 := by
  constructor
  · rw [emitSoftMax_mk, gfpms_scale_one]
    simp only [Option.map_some']
    norm_num
    decide
  · decide

/-- **C4** (amended).  For every softmax lowering with dequantize scale
`s`: `beta_multiplier = min(kBeta * s * 2^(31-kInputBits), 2^31 - 1)` is
fed through the multiplier/shift routine giving `(multiplier, shift)`
(argument positions 3 and 4), and the emitted diff-min (position 5) is
`-((((1 << kScaledDiffIntegerBits) - 1) << (31 - kScaledDiffIntegerBits)) >> shift)`
— the arithmetic right shift applied before the negation — with
`kScaledDiffIntegerBits = 5`, `kInputBits = 5`, `kBeta = 1`. -/
theorem softmax_fixed_point_parameters (g xn : String) (s : ℚ)
    (dzp qscale qzp : RExpr) (sh : List Int) (rs : Int) :
    (EmitSoftMax g (mkSoftmaxPattern (RExpr.rvar xn []) s dzp qscale qzp (sh ++ [rs]))).map
      (fun pf => ((externArgs pf.body).get? 3, (externArgs pf.body).get? 4,
                  (externArgs pf.body).get? 5)) =
      some
        (some (PFArg.int (GetFixedPointMultiplierShift
            (min (kBeta * s * ((2:ℚ) ^ (31 - kInputBits))) ((2:ℚ) ^ (31:Nat) - 1))).1),
         some (PFArg.int (GetFixedPointMultiplierShift
            (min (kBeta * s * ((2:ℚ) ^ (31 - kInputBits))) ((2:ℚ) ^ (31:Nat) - 1))).2),
         some (PFArg.int (-(ashr (((2:Int) ^ kScaledDiffIntegerBits - 1) * 2 ^ (31 - kScaledDiffIntegerBits))
            (GetFixedPointMultiplierShift
              (min (kBeta * s * ((2:ℚ) ^ (31 - kInputBits))) ((2:ℚ) ^ (31:Nat) - 1))).2)))) ∧
    kScaledDiffIntegerBits = 5 ∧ kInputBits = 5 ∧ kBeta = 1 := by
  refine ⟨?_, rfl, rfl, rfl⟩
  rw [emitSoftMax_mk]
  simp only [Option.map_some']
  norm_num
  refine ⟨?_, ?_, ?_⟩ <;> rfl

/-- **C5.** The softmax external-call argument list is exactly
[input handle, row count, row size, multiplier, shift, diff-min, output
handle] after the routine-name literal `arm_softmax_s8`; the row size is
the output shape's trailing axis and the row count the product of the
preceding axes.  In particular, for output shape (1, 4, 4, 10) the emitted
row size is 10 and the row count 16. -/
theorem softmax_call_arguments (g xn : String) (s : ℚ)
    (dzp qscale qzp : RExpr) (sh : List Int) (rs : Int) :
    (EmitSoftMax g (mkSoftmaxPattern (RExpr.rvar xn []) s dzp qscale qzp (sh ++ [rs]))).map
      (fun pf => (externRoutine pf.body, externArgs pf.body)) =
      some ("arm_softmax_s8",
        [PFArg.hvar "input", PFArg.int (sh.foldl (· * ·) 1), PFArg.int rs,
         PFArg.int (GetFixedPointMultiplierShift
            (min (kBeta * s * ((2:ℚ) ^ (31 - kInputBits))) ((2:ℚ) ^ (31:Nat) - 1))).1,
         PFArg.int (GetFixedPointMultiplierShift
            (min (kBeta * s * ((2:ℚ) ^ (31 - kInputBits))) ((2:ℚ) ^ (31:Nat) - 1))).2,
         PFArg.int (ashr (((2:Int) ^ kScaledDiffIntegerBits - 1) * 2 ^ (31 - kScaledDiffIntegerBits))
            (GetFixedPointMultiplierShift
              (min (kBeta * s * ((2:ℚ) ^ (31 - kInputBits))) ((2:ℚ) ^ (31:Nat) - 1))).2 * (-1)),
         PFArg.hvar "output"]) ∧
    ((EmitSoftMax g (mkSoftmaxPattern (RExpr.rvar xn []) s dzp qscale qzp ([1, 4, 4] ++ [10]))).map
      (fun pf => ((externArgs pf.body).get? 1, (externArgs pf.body).get? 2)) =
      some (some (PFArg.int 16), some (PFArg.int 10))) := by
  constructor
  · rw [emitSoftMax_mk]
    simp [externArgs, externRoutine, CreatePrimFuncForExtern]
  · rw [emitSoftMax_mk]
    simp only [Option.map_some']
    norm_num
    constructor <;> rfl

/-! ## Claim theorems: elementwise mul / add -/

/-- **C6.** The elementwise-add lowering derives its three fixed-point
pairs from exactly the three ratios `s0 / (2 * max s0 s1)`,
`s1 / (2 * max s0 s1)` and `(2 * max s0 s1) / (2^20 * so)`, each resolved
independently through the multiplier/shift routine, and passes the fixed
left-shift constant 20 (argument position 8). -/
theorem add_rescaling_ratios (g : String) (t0 t1 : RExpr) (s0 : ℚ) (z0 : Int)
    (s1 : ℚ) (z1 : Int) (so : ℚ) (zo : Int) (outShape : List Int) :
    (EmitAdd g (mkBinaryQnn "qnn.add" t0 t1 s0 z0 s1 z1 so zo outShape)).map
      (fun pf => ((externArgs pf.body).get? 3, (externArgs pf.body).get? 4,
                  (externArgs pf.body).get? 6, (externArgs pf.body).get? 7,
                  (externArgs pf.body).get? 11, (externArgs pf.body).get? 12,
                  (externArgs pf.body).get? 8)) =
      some
        (some (PFArg.int (GetFixedPointMultiplierShift (s0 / (2 * max s0 s1))).1),
         some (PFArg.int (GetFixedPointMultiplierShift (s0 / (2 * max s0 s1))).2),
         some (PFArg.int (GetFixedPointMultiplierShift (s1 / (2 * max s0 s1))).1),
         some (PFArg.int (GetFixedPointMultiplierShift (s1 / (2 * max s0 s1))).2),
         some (PFArg.int (GetFixedPointMultiplierShift ((2 * max s0 s1) / ((2:ℚ) ^ (20:Nat) * so))).1),
         some (PFArg.int (GetFixedPointMultiplierShift ((2 * max s0 s1) / ((2:ℚ) ^ (20:Nat) * so))).2),
         some (PFArg.int 20)) := by
  rw [emitAdd_mk]
  rfl

/-- **C7.** The elementwise-multiply external call passes exactly
[routine name; two input handles; the negated input zero-points; output
handle; output zero-point; output multiplier; output shift; -128; 127;
total element count], and both the multiply and add argument lists end
with the total element count, the product of the output shape dimensions. -/
theorem mul_add_abi_order (g : String) (t0 t1 : RExpr) (s0 : ℚ) (z0 : Int)
    (s1 : ℚ) (z1 : Int) (so : ℚ) (zo : Int) (outShape : List Int) :
    (EmitMul g (mkBinaryQnn "qnn.mul" t0 t1 s0 z0 s1 z1 so zo outShape)).map
      (fun pf => (externRoutine pf.body, externArgs pf.body)) =
      some ("arm_elementwise_mul_s8",
        [PFArg.hvar "input_0", PFArg.hvar "input_1",
         PFArg.int (-z0), PFArg.int (-z1),
         PFArg.hvar "output", PFArg.int zo,
         PFArg.int (GetFixedPointMultiplierShift (s0 * s1 / so)).1,
         PFArg.int (GetFixedPointMultiplierShift (s0 * s1 / so)).2,
         PFArg.int (-128), PFArg.int 127,
         PFArg.int (outShape.foldl (· * ·) 1)]) ∧
    (EmitMul g (mkBinaryQnn "qnn.mul" t0 t1 s0 z0 s1 z1 so zo outShape)).map
      (fun pf => (externArgs pf.body).getLast?) =
      some (some (PFArg.int (outShape.foldl (· * ·) 1))) ∧
    (EmitAdd g (mkBinaryQnn "qnn.add" t0 t1 s0 z0 s1 z1 so zo outShape)).map
      (fun pf => (externArgs pf.body).getLast?) =
      some (some (PFArg.int (outShape.foldl (· * ·) 1))) := by
  refine ⟨?_, ?_, ?_⟩
  · rw [emitMul_mk]; rfl
  · rw [emitMul_mk]; rfl
  · rw [emitAdd_mk]; rfl

/-- Every argument is a literal (string or integer immediate) or a handle
appearing in the given signature. -/
def argsLiteralOrSigHandle (args : List PFArg) (sig : List String) : Bool :=
  args.all fun a =>
    match a with
    | PFArg.int _ => true
    | PFArg.str _ => true
    | PFArg.hvar n => sig.contains n

/-- **C10.** For the softmax, multiply and add patterns the emitted
signature is exactly the input handles followed by the output handle, the
body allocates no scratch buffer (the context-buffer size defaults to 0),
contains exactly one external call, and every non-handle argument of that
call is an embedded literal constant. -/
theorem simple_patterns_signature_and_literals (g xn : String) (s : ℚ)
    (dzp qscale qzp t0 t1 : RExpr) (sh : List Int) (rs : Int)
    (s0 : ℚ) (z0 : Int) (s1 : ℚ) (z1 : Int) (so : ℚ) (zo : Int)
    (outShape : List Int) :
    (EmitSoftMax g (mkSoftmaxPattern (RExpr.rvar xn []) s dzp qscale qzp (sh ++ [rs]))).map
      (fun pf => (pf.signature, allocationsOf pf.body, countExternCalls pf.body,
                  argsLiteralOrSigHandle (externArgs pf.body) pf.signature)) =
      some (["input", "output"], [], 1, true) ∧
    (EmitMul g (mkBinaryQnn "qnn.mul" t0 t1 s0 z0 s1 z1 so zo outShape)).map
      (fun pf => (pf.signature, allocationsOf pf.body, countExternCalls pf.body,
                  argsLiteralOrSigHandle (externArgs pf.body) pf.signature)) =
      some (["input_0", "input_1", "output"], [], 1, true) ∧
    (EmitAdd g (mkBinaryQnn "qnn.add" t0 t1 s0 z0 s1 z1 so zo outShape)).map
      (fun pf => (pf.signature, allocationsOf pf.body, countExternCalls pf.body,
                  argsLiteralOrSigHandle (externArgs pf.body) pf.signature)) =
      some (["input_0", "input_1", "output"], [], 1, true) := by
  refine ⟨?_, ?_, ?_⟩
  · rw [emitSoftMax_mk]; rfl
  · rw [emitMul_mk]; rfl
  · rw [emitAdd_mk]; rfl

/-! ## Claim theorems: signature / call mirroring -/

/-- A concrete fully-featured convolution pattern (bias and clip present):
input (1,16,16,8), OHWI filter (4,3,3,8), output (1,14,14,4), input zero
point 3, output zero point 7, clip bounds (0, 6), strides (1,1), no
padding, dilation (1,1). -/
def convFullExample : RExpr :=
  mkConvPattern true true (RExpr.rvar "x" [1,16,16,8]) (RExpr.constTensor [4,3,3,8])
    (RExpr.constTensor [4]) (RExpr.constI32 0) (RExpr.constTensor [4])
    (RExpr.constTensor [4]) (RExpr.constTensor []) (RExpr.constTensor [])
    (RExpr.constI32 0) 3 7 0 6 ⟨(1,1),(0,0),(1,1)⟩ [1,14,14,4]

/-- **C8** (counterexample).  On the concrete convolution lowering the
emitted unit's signature contains the `filter_scale` and `input_scale`
handles, which never occur among the external call's arguments — so the
formal parameter list does not mirror the call's handle arguments
one-to-one. -/
theorem signature_mirror_counterexample :
    (EmitConv2D 0 "gv" convFullExample).map (fun r =>
      (r.1.signature.contains "filter_scale",
       (handleNames (externArgs r.1.body)).contains "filter_scale",
       r.1.signature.contains "input_scale",
       (handleNames (externArgs r.1.body)).contains "input_scale")) =
      some (true, false, true, false) := by
  decide

/-- **C8** (amended).  For the softmax, multiply and add patterns the
emitted unit's formal parameters mirror the external call's handle
arguments exactly and in order; for the convolution pattern the call's
handle arguments appear in the signature in the same relative order, but
the signature additionally contains the `filter_scale` and `input_scale`
handles (mirroring the partitioned Relay function's parameters), which do
not appear in the call. -/
theorem signature_mirrors_call_handles (useBias useClip : Bool)
    (g xn : String) (cnt : Nat) (s : ℚ) (dzp qscale qzp t0 t1 : RExpr)
    (sh : List Int) (rs : Int)
    (s0 : ℚ) (z0 : Int) (s1 : ℚ) (z1 : Int) (so : ℚ) (zo : Int)
    (outShape : List Int)
    (mult scale wscale biasC a b c : RExpr)
    (inputZP outZP amin amax : Int) (at_ : Conv2DAttrs)
    (i0 i1 i2 i3 f0 f1 f2 f3 o0 o1 o2 o3 : Int) :
    (EmitSoftMax g (mkSoftmaxPattern (RExpr.rvar xn []) s dzp qscale qzp (sh ++ [rs]))).map
      (fun pf => (handleNames (externArgs pf.body), pf.signature)) =
      some (["input", "output"], ["input", "output"]) ∧
    (EmitMul g (mkBinaryQnn "qnn.mul" t0 t1 s0 z0 s1 z1 so zo outShape)).map
      (fun pf => (handleNames (externArgs pf.body), pf.signature)) =
      some (["input_0", "input_1", "output"], ["input_0", "input_1", "output"]) ∧
    (EmitAdd g (mkBinaryQnn "qnn.add" t0 t1 s0 z0 s1 z1 so zo outShape)).map
      (fun pf => (handleNames (externArgs pf.body), pf.signature)) =
      some (["input_0", "input_1", "output"], ["input_0", "input_1", "output"]) ∧
    (EmitConv2D cnt g (mkConvPattern useBias useClip (RExpr.rvar xn [i0,i1,i2,i3])
        (RExpr.constTensor [f0,f1,f2,f3]) mult scale wscale biasC a b c
        inputZP outZP amin amax at_ [o0,o1,o2,o3])).map
      (fun r => (handleNames (externArgs r.1.body), r.1.signature)) =
      some (["input", "filter", "multiplier"]
              ++ (if useBias then ["bias"] else []) ++ ["shift", "output"],
            ["input", "filter", "multiplier", "filter_scale"]
              ++ (if useBias then ["bias"] else [])
              ++ ["input_scale", "shift", "output"]) := by
  refine ⟨?_, ?_, ?_, ?_⟩
  · rw [emitSoftMax_mk]; rfl
  · rw [emitMul_mk]; rfl
  · rw [emitAdd_mk]; rfl
  · rw [emitConv2D_mk useBias useClip g cnt (RExpr.rvar xn [i0,i1,i2,i3])
      (RExpr.constTensor [f0,f1,f2,f3]) mult scale wscale biasC a b c
      inputZP outZP amin amax at_ i0 i1 i2 i3 f0 f1 f2 f3 o0 o1 o2 o3 rfl rfl]
    simp only [Option.map_some', externArgs_create, signature_create]
    cases useBias <;> cases useClip <;> exact congrArg some (Prod.ext rfl rfl)

/-! ## Claim theorems: rewrite driver -/

/-- **C9.** Call-site handling of the rewrite driver: (1) a call to an
operator is left unchanged apart from its arguments being re-visited
through the same pass; (2) likewise a call to a function not tagged
`Compiler="cmsis-nn"`; (3) a call to a recognized `cmsis-nn` function that
the driver accepts is replaced by a call to the new unit's registered
global name, preserving the original call's attrs, type_args and span,
with the argument expressions independently re-visited. -/
theorem rewrite_driver_call_site_frame :
    (∀ (op : String) (args : List RExpr) (at_ : Attrs) (ty : List Int)
        (cnt : Nat) (m : Module),
      rewriteExpr (RExpr.callOp op args at_ ty) cnt m =
        (rewriteList args cnt m).bind fun r =>
          some (RExpr.callOp op r.1 at_ ty, r.2.1, r.2.2)) ∧
    (∀ (fattrs : FuncAttrs) (fbody : RExpr) (fargs : List RExpr) (ca : Nat)
        (ta : List Nat) (sp cnt : Nat) (m : Module),
      fattrs.compiler ≠ some "cmsis-nn" →
      rewriteExpr (RExpr.callFn fattrs fbody fargs ca ta sp) cnt m =
        (rewriteList fargs cnt m).bind fun r =>
          some (RExpr.callFn fattrs fbody r.1 ca ta sp, r.2.1, r.2.2)) ∧
    (∀ (fattrs : FuncAttrs) (fbody : RExpr) (fargs : List RExpr) (ca : Nat)
        (ta : List Nat) (sp cnt : Nat) (m : Module) (res : RExpr) (c2 : Nat)
        (m2 : Module),
      fattrs.compiler = some "cmsis-nn" →
      rewriteExpr (RExpr.callFn fattrs fbody fargs ca ta sp) cnt m =
        some (res, c2, m2) →
      ∃ fname args1 c1 m1, fattrs.globalSymbol = some fname ∧
        rewriteList fargs cnt m = some (args1, c1, m1) ∧
        res = RExpr.callGlobal fname args1 ca ta sp) := by
  refine ⟨?_, ?_, ?_⟩
  · intro op args at_ ty cnt m
    rw [rewriteExpr]
    rcases rewriteList args cnt m with _ | ⟨as2, c2, m2⟩ <;> rfl
  · intro fattrs fbody fargs ca ta sp cnt m hc
    rw [rewriteExpr]
    rcases rewriteList fargs cnt m with _ | ⟨as2, c2, m2⟩
    · rfl
    · simp only [Option.pure_def, Option.bind_eq_bind, Option.some_bind]
      rw [if_neg hc]
  · intro fattrs fbody fargs ca ta sp cnt m res c2 m2 hc h
    rw [rewriteExpr] at h
    rcases hr : rewriteList fargs cnt m with _ | ⟨as1, c1, m1⟩ <;> rw [hr] at h
    · simp at h
    · simp only [Option.pure_def, Option.bind_eq_bind, Option.some_bind] at h
      rw [if_pos hc] at h
      cases fbody with
      | callFn compAttrs compBody cargs cca cta csp =>
          rcases hg : fattrs.globalSymbol with _ | fname <;> rw [hg] at h
          · simp at h
          · simp only [Option.pure_def, Option.bind_eq_bind, Option.some_bind] at h
            rcases hd : emitDispatch compAttrs.composite fname compBody c1 m1 with
              _ | ⟨dc, dm⟩ <;> rw [hd] at h
            · simp at h
            · simp only [Option.some_bind, Option.some_inj] at h
              exact ⟨fname, as1, c1, m1, rfl, rfl, ((Prod.ext_iff.mp h).1).symm⟩
      | callOp o as at2 ty => simp at h
      | callGlobal gn as cca cta csp => simp at h
      | constI32 v => simp at h
      | constF v => simp at h
      | constTensor sh => simp at h
      | rvar n ty => simp at h

/-- Witness for the three parts of the call-site frame theorem at concrete
inputs: an operator call, a non-`cmsis-nn` function call, and a
`cmsis-nn`-tagged call (whose composite name matches no emitter, so the
dispatch trivially succeeds) that gets replaced by a `GlobalVar` call. -/
theorem rewrite_driver_call_site_frame_witness :
    (rewriteExpr (RExpr.callOp "clip" [] Attrs.none []) 0 [] =
      (rewriteList ([] : List RExpr) 0 []).bind fun r =>
        some (RExpr.callOp "clip" r.1 Attrs.none [], r.2.1, r.2.2)) ∧
    ((⟨none, none, none⟩ : FuncAttrs).compiler ≠ some "cmsis-nn" ∧
     rewriteExpr (RExpr.callFn ⟨none, none, none⟩ (RExpr.rvar "b" []) [] 4 [5] 6) 0 [] =
      (rewriteList ([] : List RExpr) 0 []).bind fun r =>
        some (RExpr.callFn ⟨none, none, none⟩ (RExpr.rvar "b" []) r.1 4 [5] 6, r.2.1, r.2.2)) ∧
    ((⟨some "cmsis-nn", none, some "f"⟩ : FuncAttrs).compiler = some "cmsis-nn" ∧
     rewriteExpr (RExpr.callFn ⟨some "cmsis-nn", none, some "f"⟩
        (RExpr.callFn ⟨none, some "unknown", none⟩ (RExpr.rvar "x" []) [] 0 [] 0)
        [] 1 [2] 3) 0 [] =
      some (RExpr.callGlobal "f" [] 1 [2] 3, 0, []) ∧
     (∃ fname args1 c1 m1,
        (⟨some "cmsis-nn", none, some "f"⟩ : FuncAttrs).globalSymbol = some fname ∧
        rewriteList ([] : List RExpr) 0 [] = some (args1, c1, m1) ∧
        RExpr.callGlobal "f" [] 1 [2] 3 = RExpr.callGlobal fname args1 1 [2] 3)) := by
  have hrun : rewriteExpr (RExpr.callFn ⟨some "cmsis-nn", none, some "f"⟩
      (RExpr.callFn ⟨none, some "unknown", none⟩ (RExpr.rvar "x" []) [] 0 [] 0)
      [] 1 [2] 3) 0 [] = some (RExpr.callGlobal "f" [] 1 [2] 3, 0, []) := by
    rw [rewriteExpr]
    simp [rewriteList, emitDispatch]
  refine ⟨rewrite_driver_call_site_frame.1 "clip" [] Attrs.none [] 0 [],
          ⟨by simp, rewrite_driver_call_site_frame.2.1 _ _ _ _ _ _ _ _ (by simp)⟩,
          ⟨rfl, hrun, rewrite_driver_call_site_frame.2.2 _ _ _ _ _ _ _ _ _ _ _ rfl hrun⟩⟩

end CMSISNN
